import Mathlib

/-!
Verification development for the whisper-transcriber Streamlit app
(src/app.py).  The per-file batch loop, timestamp formatting, combined
export, model-provider cache and the ffmpeg probe are embedded as pure
Lean functions; external effects (the transcribe call, the temporary-file
write, subprocess runs) are parameters describing their observable
outcome.  Segment times are modelled in integer microseconds, the
resolution of Python datetime values.
-/

set_option autoImplicit false

namespace WhisperApp

/-- An uploaded audio file: the name of `uploaded_file` and the byte payload
returned by `uploaded_file.getvalue()`, modelled as a string. -/
structure AudioItem where
  name : String
  data : String
deriving DecidableEq

/-- One whisper segment: start and end times in integer microseconds and the
recognized text.  A source value of `t` seconds is represented as `t * 10^6`
microseconds, which is exact at the resolution of Python datetime. -/
structure Segment where
  start : Nat
  «end» : Nat
  text : String
deriving DecidableEq

/-- Zero-padding of a numeral to two digits, as strftime `%H`, `%M` and `%S`
print their fields. -/
def pad2 (n : Nat) : String :=
  if n < 10 then "0" ++ toString n else toString n

/-- The first three digits of the six-digit zero-padded `%f` microsecond
field: what remains of it after the `[:-3]` slice. -/
def pad3 (n : Nat) : String :=
  if n < 10 then "00" ++ toString n
  else if n < 100 then "0" ++ toString n
  else toString n

/-- Embeds `str(datetime.utcfromtimestamp(t).strftime(..HMSf..))[:-3]`
(src/app.py lines 191-192) for `t = us / 10^6` seconds, `us : Nat` in
microseconds.  `utcfromtimestamp` turns the offset from the epoch into a UTC
calendar datetime, so `%H` prints the hour of day — total seconds divided by
3600, modulo 24, whole days being absorbed by the unprinted date — `%M` and
`%S` print minute and second of the day, and the `[:-3]` slice truncates the
microsecond field to milliseconds. -/
def formatTimestamp (us : Nat) : String :=
  let total := us / 1000000
  pad2 (total / 3600 % 24) ++ ":" ++ pad2 (total / 60 % 60) ++ ":" ++
    pad2 (total % 60) ++ "." ++ pad3 (us % 1000000 / 1000)

/-- One line of the timestamped text (src/app.py line 194): the formatted
start and end times in brackets, then a space and the segment text, then a
newline. -/
def formatSegmentLine (s : Segment) : String :=
  "[" ++ formatTimestamp s.start ++ " --> " ++ formatTimestamp s.«end» ++ "] " ++ s.text ++ "\n"

/-- The `timestamp_text` accumulation loop over segments
(src/app.py lines 185-194). -/
def timestampText : List Segment → String
  | [] => ""
  | s :: rest => formatSegmentLine s ++ timestampText rest

/-- The value returned by `model.transcribe`: the `text` and `segments`
entries of the result dict. -/
structure TranscribeOut where
  text : String
  segments : List Segment
deriving DecidableEq

/-- The per-file dict appended to `all_results` (src/app.py lines 176-182). -/
structure FileResult where
  filename : String
  text : String
  transcribe_time : Nat
  segments : List Segment
deriving DecidableEq

/-- The per-file dict appended to `all_timestamps`
(src/app.py lines 196-199). -/
structure TimestampedText where
  filename : String
  timestamp_text : String
deriving DecidableEq

/-- The observable behaviour of one item's external effects: writing the
bytes to the temporary file may raise (this happens before the `try`), and
`model.transcribe` may raise (caught by the per-item `except`) or return a
result, in which case the measured wall-clock duration is also recorded. -/
inductive ItemBeh where
  | persistError (msg : String)
  | transcribeError (msg : String)
  | ok (result : TranscribeOut) (duration : Nat)
deriving DecidableEq

/-- Whether the behaviour is a failure of the temporary-file write. -/
def ItemBeh.isPersistError : ItemBeh → Bool
  | .persistError _ => true
  | _ => false

/-- Splitting a list of characters at every dot, the character-level meaning
of the Python split call on the file name: adjacent dots and boundary dots
yield empty pieces, exactly as in Python. -/
def splitOnDot : List Char → List (List Char)
  | [] => [[]]
  | c :: rest =>
    let groups := splitOnDot rest
    if c = '.' then [] :: groups
    else
      match groups with
      | [] => [[c]]
      | g :: gs => (c :: g) :: gs

/-- The extension taken by splitting the file name on dots and keeping the
last piece (src/app.py line 157). -/
def extOf (name : String) : String :=
  String.mk ((splitOnDot name.toList).getLastD [])

/-- The path of the `NamedTemporaryFile(delete=False, suffix=...)` created
for an item.  The generated basename is arbitrary; at most one temporary
file is ever live at a time, so a fixed basename is faithful. -/
def tmpName (item : AudioItem) : String :=
  "tmp." ++ extOf item.name

/-- What one loop iteration contributed: a success appends to both result
lists, a caught transcribe failure records an error message, and an uncaught
exception aborts the loop. -/
inductive StepOutcome where
  | succeeded (r : FileResult) (t : TimestampedText)
  | failed (filename : String) (msg : String)
  | aborted (msg : String)
deriving DecidableEq

/-- The `all_results` entry built on success (src/app.py lines 176-181). -/
def mkFileResult (item : AudioItem) (out : TranscribeOut) (dur : Nat) : FileResult :=
  ⟨item.name, out.text, dur, out.segments⟩

/-- The `all_timestamps` entry built on success (src/app.py lines 196-199). -/
def mkTimestamped (item : AudioItem) (out : TranscribeOut) : TimestampedText :=
  ⟨item.name, timestampText out.segments⟩

/-- One iteration of the per-file loop (src/app.py lines 149-207), acting on
the list `fs` of temporary files currently on disk.  The temporary file is
created and written before the `try` (lines 156-159); if the write raises,
the exception propagates uncaught — the `finally` of line 204 belongs to the
not-yet-entered `try` — so the file stays on disk and the loop aborts.
Inside the `try`, an error from `model.transcribe` is caught at line 201 and
recorded per file; on both paths of the `try` the `finally` unlinks the
temporary file. -/
def processItem (beh : AudioItem → ItemBeh) (fs : List String) (item : AudioItem) :
    List String × StepOutcome :=
  let fs1 := fs ++ [tmpName item]
  match beh item with
  | .persistError msg => (fs1, .aborted msg)
  | .transcribeError msg => (fs1.erase (tmpName item), .failed item.name msg)
  | .ok out dur =>
      (fs1.erase (tmpName item), .succeeded (mkFileResult item out dur) (mkTimestamped item out))

/-- The state visible after the batch loop: the two result lists, the
per-file error messages shown by `st.error`, the temporary files still on
disk, and — when an exception escaped the loop — its message.  When
`aborted` is set the fields describe the state at the moment the uncaught
exception is raised. -/
structure BatchOut where
  all_results : List FileResult
  all_timestamps : List TimestampedText
  errors : List (String × String)
  tempFiles : List String
  aborted : Option String
deriving DecidableEq

/-- The batch loop over `uploaded_files` (src/app.py lines 149-207),
threading the list of on-disk temporary files.  An uncaught exception — a
failure of the temporary-file write — stops the loop at once. -/
def runBatch (beh : AudioItem → ItemBeh) (fs : List String) : List AudioItem → BatchOut
  | [] => ⟨[], [], [], fs, none⟩
  | item :: rest =>
    match processItem beh fs item with
    | (fs1, .aborted msg) => ⟨[], [], [], fs1, some msg⟩
    | (fs1, .failed f m) =>
        let out := runBatch beh fs1 rest
        ⟨out.all_results, out.all_timestamps, (f, m) :: out.errors, out.tempFiles, out.aborted⟩
    | (fs1, .succeeded r t) =>
        let out := runBatch beh fs1 rest
        ⟨r :: out.all_results, t :: out.all_timestamps, out.errors, out.tempFiles, out.aborted⟩

/-- The `all_results` entry an item yields under a given behaviour, if any. -/
def resultOf (beh : AudioItem → ItemBeh) (item : AudioItem) : Option FileResult :=
  match beh item with
  | .ok out dur => some (mkFileResult item out dur)
  | _ => none

/-- The `all_timestamps` entry an item yields under a given behaviour,
if any. -/
def timestampOf (beh : AudioItem → ItemBeh) (item : AudioItem) : Option TimestampedText :=
  match beh item with
  | .ok out _ => some (mkTimestamped item out)
  | _ => none

/-- The per-file error record an item yields under a given behaviour,
if any (src/app.py line 202). -/
def errorOf (beh : AudioItem → ItemBeh) (item : AudioItem) : Option (String × String) :=
  match beh item with
  | .transcribeError msg => some (item.name, msg)
  | _ => none

/-- A loaded whisper model handle; `id` models Python object identity. -/
structure ModelHandle where
  id : Nat
  model_name : String
  device : String
deriving DecidableEq

/-- The process-wide `st.cache_resource` store keyed by the model name,
instrumented with a count of real loads and a counter for fresh handle
identities. -/
structure CacheState where
  cache : List (String × ModelHandle)
  loadCount : Nat
  nextId : Nat
deriving DecidableEq

/-- Embeds `load_whisper_model` (src/app.py lines 24-28) together with the
memoization of the `st.cache_resource` decorator: a cache hit returns the
stored handle and changes nothing; a miss runs the body, which picks cuda
when `torch.cuda.is_available()` — modelled by `cudaAvailable` — and cpu
otherwise, loads a fresh model and stores it under the name. -/
def load_whisper_model (cudaAvailable : Bool) (s : CacheState) (model_name : String) :
    ModelHandle × CacheState :=
  match s.cache.lookup model_name with
  | some h => (h, s)
  | none =>
      let device := if cudaAvailable then "cuda" else "cpu"
      let h : ModelHandle := ⟨s.nextId, model_name, device⟩
      (h, ⟨(model_name, h) :: s.cache, s.loadCount + 1, s.nextId + 1⟩)

/-- The outcome of a `subprocess.run` call: a completed process with a
return code, or a raised exception. -/
inductive RunOutcome where
  | returns (code : Int)
  | raises (msg : String)
deriving DecidableEq

/-- The host facts probed by `check_ffmpeg`: the run of ffmpeg -version from
PATH, whether the Chocolatey ffmpeg binary exists, and the run of that
binary. -/
structure ProbeEnv where
  primary : RunOutcome
  chocoExists : Bool
  fallback : RunOutcome
deriving DecidableEq

/-- The Chocolatey binary directory prepended to PATH at src/app.py
line 54. -/
def chocolateyBin : String := "C:\\ProgramData\\chocolatey\\bin"

/-- Embeds `check_ffmpeg` (src/app.py lines 30-67) as a function of the host
facts and the current PATH value, returning the boolean result and the PATH
after the call.  Primary success returns early; a primary exception is
caught by the outer handler and returns False; a nonzero primary return code
falls through to the Chocolatey fallback, whose success alone prepends the
Chocolatey directory to PATH; an exception of the fallback run is swallowed
by the inner handler and a nonzero fallback code falls through, both ending
at the warning. -/
def check_ffmpeg (env : ProbeEnv) (path : String) : Bool × String :=
  match env.primary with
  | .raises _ => (false, path)
  | .returns c =>
    if c = 0 then (true, path)
    else if env.chocoExists then
      match env.fallback with
      | .raises _ => (false, path)
      | .returns c2 =>
          if c2 = 0 then (true, chocolateyBin ++ ";" ++ path) else (false, path)
    else (false, path)

/-- Whether the primary ffmpeg run completed with a nonzero return code —
the one situation in which `check_ffmpeg` goes on to the fallback. -/
def primaryReturnsNonzero (env : ProbeEnv) : Bool :=
  match env.primary with
  | .returns c => c != 0
  | .raises _ => false

/-- Whether the Chocolatey fallback run completed with return code zero. -/
def fallbackReturnsZero (env : ProbeEnv) : Bool :=
  match env.fallback with
  | .returns c => c == 0
  | .raises _ => false

/-- The combined plain-text export loop (src/app.py lines 268-270): for each
result, a header line with the filename between === markers, a blank line,
the text, and a blank line. -/
def combined_text : List FileResult → String
  | [] => ""
  | r :: rest => "=== " ++ r.filename ++ " ===\n\n" ++ r.text ++ "\n\n" ++ combined_text rest

/-- Example upload: an mp3 file. -/
def itemA : AudioItem := ⟨"a.mp3", "ID3bytesA"⟩

/-- Example upload: a wav file. -/
def itemB : AudioItem := ⟨"b.wav", "RIFFbytesB"⟩

/-- Example upload: a flac file. -/
def itemC : AudioItem := ⟨"c.flac", "fLaCbytesC"⟩

/-- Example behaviour: transcription succeeds on a.mp3 and raises on every
other file; the temporary-file writes always succeed. -/
def behMix : AudioItem → ItemBeh := fun it =>
  if it.name = "a.mp3" then .ok ⟨"Hello", [⟨0, 1500000, "Hello"⟩]⟩ 2
  else .transcribeError "Failed to load audio"

/-- Example behaviour: transcription succeeds on a.mp3; for every other file
the temporary-file write itself raises. -/
def behPersist : AudioItem → ItemBeh := fun it =>
  if it.name = "a.mp3" then .ok ⟨"Hello", [⟨0, 1500000, "Hello"⟩]⟩ 2
  else .persistError "No space left on device"

/-- The cache state before any model has been loaded. -/
def emptyCache : CacheState := ⟨[], 0, 0⟩

/-! Helper lemmas about the batch loop. -/

theorem runBatch_results_of_noPersist (beh : AudioItem → ItemBeh) (items : List AudioItem)
    (h : ∀ it ∈ items, (beh it).isPersistError = false) (fs : List String) :
    (runBatch beh fs items).all_results = items.filterMap (resultOf beh) := by
  induction items generalizing fs with
  | nil => rfl
  | cons item rest ih =>
    have hhead := h item (List.mem_cons_self item rest)
    have htail : ∀ it ∈ rest, (beh it).isPersistError = false :=
      fun it hit => h it (List.mem_cons_of_mem item hit)
    cases hb : beh item with
    | persistError msg => simp [ItemBeh.isPersistError, hb] at hhead
    | transcribeError msg =>
        simp [runBatch, processItem, hb, resultOf, List.filterMap_cons, ih htail]
    | ok out dur =>
        simp [runBatch, processItem, hb, resultOf, List.filterMap_cons, ih htail]

theorem runBatch_timestamps_of_noPersist (beh : AudioItem → ItemBeh) (items : List AudioItem)
    (h : ∀ it ∈ items, (beh it).isPersistError = false) (fs : List String) :
    (runBatch beh fs items).all_timestamps = items.filterMap (timestampOf beh) := by
  induction items generalizing fs with
  | nil => rfl
  | cons item rest ih =>
    have hhead := h item (List.mem_cons_self item rest)
    have htail : ∀ it ∈ rest, (beh it).isPersistError = false :=
      fun it hit => h it (List.mem_cons_of_mem item hit)
    cases hb : beh item with
    | persistError msg => simp [ItemBeh.isPersistError, hb] at hhead
    | transcribeError msg =>
        simp [runBatch, processItem, hb, timestampOf, List.filterMap_cons, ih htail]
    | ok out dur =>
        simp [runBatch, processItem, hb, timestampOf, List.filterMap_cons, ih htail]

theorem runBatch_errors_of_noPersist (beh : AudioItem → ItemBeh) (items : List AudioItem)
    (h : ∀ it ∈ items, (beh it).isPersistError = false) (fs : List String) :
    (runBatch beh fs items).errors = items.filterMap (errorOf beh) := by
  induction items generalizing fs with
  | nil => rfl
  | cons item rest ih =>
    have hhead := h item (List.mem_cons_self item rest)
    have htail : ∀ it ∈ rest, (beh it).isPersistError = false :=
      fun it hit => h it (List.mem_cons_of_mem item hit)
    cases hb : beh item with
    | persistError msg => simp [ItemBeh.isPersistError, hb] at hhead
    | transcribeError msg =>
        simp [runBatch, processItem, hb, errorOf, List.filterMap_cons, ih htail]
    | ok out dur =>
        simp [runBatch, processItem, hb, errorOf, List.filterMap_cons, ih htail]

theorem runBatch_tempFiles_of_noPersist (beh : AudioItem → ItemBeh) (items : List AudioItem)
    (h : ∀ it ∈ items, (beh it).isPersistError = false) :
    (runBatch beh [] items).tempFiles = [] := by
  induction items with
  | nil => rfl
  | cons item rest ih =>
    have hhead := h item (List.mem_cons_self item rest)
    have htail : ∀ it ∈ rest, (beh it).isPersistError = false :=
      fun it hit => h it (List.mem_cons_of_mem item hit)
    cases hb : beh item with
    | persistError msg => simp [ItemBeh.isPersistError, hb] at hhead
    | transcribeError msg =>
        simp [runBatch, processItem, hb, List.erase_cons_head, ih htail]
    | ok out dur =>
        simp [runBatch, processItem, hb, List.erase_cons_head, ih htail]

theorem runBatch_filenames_parallel (beh : AudioItem → ItemBeh) (items : List AudioItem)
    (fs : List String) :
    ((runBatch beh fs items).all_results).map FileResult.filename
      = ((runBatch beh fs items).all_timestamps).map TimestampedText.filename := by
  induction items generalizing fs with
  | nil => rfl
  | cons item rest ih =>
    cases hb : beh item with
    | persistError msg => simp [runBatch, processItem, hb]
    | transcribeError msg => simp [runBatch, processItem, hb, ih]
    | ok out dur =>
        simp [runBatch, processItem, hb, mkFileResult, mkTimestamped, ih]

theorem runBatch_persist_abort (beh : AudioItem → ItemBeh) (pre post : List AudioItem)
    (bad : AudioItem) (m : String)
    (hnp : ∀ it ∈ pre, (beh it).isPersistError = false)
    (hbad : beh bad = .persistError m) :
    runBatch beh [] (pre ++ bad :: post)
      = ⟨pre.filterMap (resultOf beh), pre.filterMap (timestampOf beh),
         pre.filterMap (errorOf beh), [tmpName bad], some m⟩ := by
  induction pre with
  | nil => simp [runBatch, processItem, hbad]
  | cons p pre ih =>
    have hhead := hnp p (List.mem_cons_self p pre)
    have htail : ∀ it ∈ pre, (beh it).isPersistError = false :=
      fun it hit => hnp it (List.mem_cons_of_mem p hit)
    cases hb : beh p with
    | persistError msg => simp [ItemBeh.isPersistError, hb] at hhead
    | transcribeError msg =>
        simp [runBatch, processItem, hb, List.erase_cons_head, ih htail,
          resultOf, timestampOf, errorOf, List.filterMap_cons]
    | ok out dur =>
        simp [runBatch, processItem, hb, List.erase_cons_head, ih htail,
          resultOf, timestampOf, errorOf, List.filterMap_cons]

/-! Claim theorems. -/

/-- Claim C1: if the transcription call for one item raises, no
TranscriptResult and no TimestampedTranscript is produced for that item —
the two result lists equal those of the batch without that item — and every
other item, in particular every subsequent one, is still processed: the
failing item contributes exactly one per-file error record, in position,
between the error records of the preceding and the following items. -/
theorem C1_transcribe_failure_no_short_circuit (beh : AudioItem → ItemBeh)
    (pre post : List AudioItem) (bad : AudioItem) (e : String)
    (hbad : beh bad = .transcribeError e)
    (hnp : ∀ it ∈ pre ++ bad :: post, (beh it).isPersistError = false) :
    (runBatch beh [] (pre ++ bad :: post)).all_results
        = (runBatch beh [] (pre ++ post)).all_results ∧
    (runBatch beh [] (pre ++ bad :: post)).all_timestamps
        = (runBatch beh [] (pre ++ post)).all_timestamps ∧
    (runBatch beh [] (pre ++ bad :: post)).errors
        = (runBatch beh [] pre).errors ++ (bad.name, e) :: (runBatch beh [] post).errors := by
  have hpre : ∀ it ∈ pre, (beh it).isPersistError = false :=
    fun it hit => hnp it (by simp [hit])
  have hpost : ∀ it ∈ post, (beh it).isPersistError = false :=
    fun it hit => hnp it (by simp [hit])
  have hpp : ∀ it ∈ pre ++ post, (beh it).isPersistError = false := by
    intro it hit
    rcases List.mem_append.1 hit with h1 | h1
    · exact hpre it h1
    · exact hpost it h1
  refine ⟨?_, ?_, ?_⟩
  · rw [runBatch_results_of_noPersist beh _ hnp [], runBatch_results_of_noPersist beh _ hpp []]
    simp [List.filterMap_append, List.filterMap_cons, resultOf, hbad]
  · rw [runBatch_timestamps_of_noPersist beh _ hnp [],
      runBatch_timestamps_of_noPersist beh _ hpp []]
    simp [List.filterMap_append, List.filterMap_cons, timestampOf, hbad]
  · rw [runBatch_errors_of_noPersist beh _ hnp [], runBatch_errors_of_noPersist beh _ hpre [],
      runBatch_errors_of_noPersist beh _ hpost []]
    simp [List.filterMap_append, List.filterMap_cons, errorOf, hbad]

/-- Claim C1 witness: a concrete three-item batch whose middle item fails to
transcribe. -/
theorem C1_transcribe_failure_no_short_circuit_witness :
    behMix itemB = .transcribeError "Failed to load audio" ∧
    (∀ it ∈ [itemA] ++ itemB :: [itemC], (behMix it).isPersistError = false) ∧
    ((runBatch behMix [] ([itemA] ++ itemB :: [itemC])).all_results
        = (runBatch behMix [] ([itemA] ++ [itemC])).all_results ∧
     (runBatch behMix [] ([itemA] ++ itemB :: [itemC])).all_timestamps
        = (runBatch behMix [] ([itemA] ++ [itemC])).all_timestamps ∧
     (runBatch behMix [] ([itemA] ++ itemB :: [itemC])).errors
        = (runBatch behMix [] [itemA]).errors
            ++ (itemB.name, "Failed to load audio") :: (runBatch behMix [] [itemC]).errors) :=
  ⟨by decide, by decide,
    C1_transcribe_failure_no_short_circuit behMix [itemA] [itemC] itemB
      "Failed to load audio" (by decide) (by decide)⟩

/-- Claim C2 counterexample: when the write to the temporary file raises,
the cleanup is skipped — the write happens before the try/finally — so after
the loop stops the temporary file of that item is still on disk, refuting
deletion on every exit path. -/
theorem C2_persist_error_leaks_temp_file :
    (runBatch behPersist [] [itemB]).tempFiles = ["tmp.wav"] ∧
    (runBatch behPersist [] [itemB]).tempFiles ≠ [] :=
  ⟨by decide, by decide⟩

/-- Claim C2 (amended): the scoped temporary file is deleted on both exit
paths of the transcription try block — success and transcription failure —
so when no error occurs while persisting the bytes, no temporary file exists
after the batch returns; an error while persisting aborts the batch and
leaks that item's temporary file. -/
theorem C2_no_persist_failure_no_temp_file_remains (beh : AudioItem → ItemBeh)
    (items : List AudioItem)
    (hnp : ∀ it ∈ items, (beh it).isPersistError = false) :
    (runBatch beh [] items).tempFiles = [] :=
  runBatch_tempFiles_of_noPersist beh items hnp

/-- Claim C2 witness: a concrete batch with one success and one
transcription failure leaves no temporary file. -/
theorem C2_no_persist_failure_no_temp_file_remains_witness :
    (∀ it ∈ [itemA, itemB], (behMix it).isPersistError = false) ∧
    (runBatch behMix [] [itemA, itemB]).tempFiles = [] :=
  ⟨by decide, C2_no_persist_failure_no_temp_file_remains behMix [itemA, itemB] (by decide)⟩

/-- Claim C3: evaluating the timestamp formatter at t = 86400 seconds — one
whole day — shows the hours field wrapping modulo 24: the output coincides
with the output for t = 0, although the floor of t divided by 3600 is 24,
because the elapsed time is pushed through a calendar-date formatter whose
unprinted date absorbs whole days. -/
theorem C3_hours_field_wraps_at_24h :
    formatTimestamp (86400 * 1000000) = "00:00:00.000" ∧
    formatTimestamp (86400 * 1000000) = formatTimestamp 0 ∧
    86400 * 1000000 / 1000000 / 3600 = 24 :=
  ⟨by decide, by decide, by decide⟩

/-- Claim C4: the segment list with one segment from 1.5 s to 3.25 s and
text hi is formatted exactly as the expected bracketed line; in general the
formatting is one line per segment — the bracketed start and end times, a
space and the text — concatenated in segment order. -/
theorem C4_segment_line_format :
    timestampText [⟨1500000, 3250000, "hi"⟩] = "[00:00:01.500 --> 00:00:03.250] hi\n" ∧
    (∀ xs ys : List Segment, timestampText (xs ++ ys) = timestampText xs ++ timestampText ys) ∧
    (∀ s : Segment, timestampText [s] = formatSegmentLine s) := by
  refine ⟨by decide, ?_, ?_⟩
  · intro xs ys
    induction xs with
    | nil => simp [timestampText]
    | cons s rest ih => simp [timestampText, ih, String.append_assoc]
  · intro s
    simp [timestampText]

/-- Claim C5: when the batch runs to completion, the returned results list
has exactly one entry per successfully transcribed item and none for a
failed item, in input order: it is the input list filtered and mapped by the
per-item outcome. -/
theorem C5_results_one_per_success_in_order (beh : AudioItem → ItemBeh)
    (items : List AudioItem)
    (hnp : ∀ it ∈ items, (beh it).isPersistError = false) :
    (runBatch beh [] items).all_results = items.filterMap (resultOf beh) :=
  runBatch_results_of_noPersist beh items hnp []

/-- Claim C5 witness: a concrete two-item batch with one success and one
failure. -/
theorem C5_results_one_per_success_in_order_witness :
    (∀ it ∈ [itemA, itemB], (behMix it).isPersistError = false) ∧
    (runBatch behMix [] [itemA, itemB]).all_results
      = [itemA, itemB].filterMap (resultOf behMix) :=
  ⟨by decide, C5_results_one_per_success_in_order behMix [itemA, itemB] (by decide)⟩

/-- Claim C6: a first call for an uncached model name performs a load —
the load count grows by one and the chosen device is cuda exactly when an
accelerator is available, cpu otherwise — and a second call with the same
name returns the identical handle and leaves the whole cache state
unchanged, so no new load occurs. -/
theorem C6_model_cache_identity (cudaAvailable : Bool) (s : CacheState) (model_name : String)
    (hmiss : s.cache.lookup model_name = none) :
    (load_whisper_model cudaAvailable s model_name).2.loadCount = s.loadCount + 1 ∧
    (load_whisper_model cudaAvailable s model_name).1.device
      = (if cudaAvailable then "cuda" else "cpu") ∧
    (load_whisper_model cudaAvailable (load_whisper_model cudaAvailable s model_name).2
        model_name).1 = (load_whisper_model cudaAvailable s model_name).1 ∧
    (load_whisper_model cudaAvailable (load_whisper_model cudaAvailable s model_name).2
        model_name).2 = (load_whisper_model cudaAvailable s model_name).2 := by
  simp [load_whisper_model, hmiss, List.lookup]

/-- Claim C6 witness: two calls with identifier base from the empty cache
return a handle with identical identity. -/
theorem C6_model_cache_identity_witness :
    emptyCache.cache.lookup "base" = none ∧
    ((load_whisper_model false emptyCache "base").2.loadCount = emptyCache.loadCount + 1 ∧
     (load_whisper_model false emptyCache "base").1.device
       = (if false then "cuda" else "cpu") ∧
     (load_whisper_model false (load_whisper_model false emptyCache "base").2
         "base").1 = (load_whisper_model false emptyCache "base").1 ∧
     (load_whisper_model false (load_whisper_model false emptyCache "base").2
         "base").2 = (load_whisper_model false emptyCache "base").2) :=
  ⟨rfl, C6_model_cache_identity false emptyCache "base" rfl⟩

/-- Claim C7: the combined export for two results a.mp3 with text Hello and
b.wav with text World is exactly the expected header-and-blank-line string;
in general each result contributes its header line, a blank line, its text
and a blank line, concatenated in result order. -/
theorem C7_combined_export_format :
    combined_text [⟨"a.mp3", "Hello", 2, []⟩, ⟨"b.wav", "World", 3, []⟩]
      = "=== a.mp3 ===\n\nHello\n\n=== b.wav ===\n\nWorld\n\n" ∧
    (∀ xs ys : List FileResult,
      combined_text (xs ++ ys) = combined_text xs ++ combined_text ys) ∧
    (∀ r : FileResult,
      combined_text [r] = "=== " ++ r.filename ++ " ===\n\n" ++ r.text ++ "\n\n") := by
  refine ⟨by decide, ?_, ?_⟩
  · intro xs ys
    induction xs with
    | nil => simp [combined_text]
    | cons r rest ih => simp [combined_text, ih, String.append_assoc]
  · intro r
    simp [combined_text]

/-- Claim C8: the probe changes PATH exactly when the primary ffmpeg run
completes with a nonzero code, the Chocolatey binary exists, and the
fallback run completes with code zero, and then the change is prepending the
Chocolatey directory; on primary success, primary exception, missing or
failing fallback, and fallback exception, PATH is returned unchanged. -/
theorem C8_path_modified_iff_fallback_success (env : ProbeEnv) (path : String) :
    (check_ffmpeg env path).2
      = (if primaryReturnsNonzero env && env.chocoExists && fallbackReturnsZero env
          then chocolateyBin ++ ";" ++ path else path) ∧
    ((check_ffmpeg env path).2 ≠ path
      ↔ (primaryReturnsNonzero env && env.chocoExists && fallbackReturnsZero env) = true) := by
  have h30 : ("C:\\ProgramData\\chocolatey\\bin;" : String).length = 30 := by decide
  have hlen : (chocolateyBin ++ ";" ++ path).length = path.length + 30 := by
    simp [chocolateyBin, String.length_append, h30]
    omega
  have hne : chocolateyBin ++ ";" ++ path ≠ path := by
    intro hEq
    have h2 := congrArg String.length hEq
    omega
  have heq : (check_ffmpeg env path).2
      = (if primaryReturnsNonzero env && env.chocoExists && fallbackReturnsZero env
          then chocolateyBin ++ ";" ++ path else path) := by
    obtain ⟨p, ch, fb⟩ := env
    cases p with
    | raises m => simp [check_ffmpeg, primaryReturnsNonzero]
    | returns c =>
      cases fb with
      | raises m =>
          by_cases hc : c = 0 <;>
            cases ch <;>
              simp [check_ffmpeg, primaryReturnsNonzero, fallbackReturnsZero, hc]
      | returns c2 =>
          by_cases hc : c = 0 <;> by_cases hc2 : c2 = 0 <;>
            cases ch <;>
              simp [check_ffmpeg, primaryReturnsNonzero, fallbackReturnsZero, hc, hc2]
  refine ⟨heq, ?_⟩
  rw [heq]
  by_cases hcond :
      (primaryReturnsNonzero env && env.chocoExists && fallbackReturnsZero env) = true
  · simp [hcond, hne]
  · simp [hcond]

/-- Claim C9: the two result sequences are parallel — they have equal length
and at every index the filename recorded in the results entry equals the
filename recorded in the timestamped entry, because a successful item
appends one entry carrying its name to each list and nothing else touches
them. -/
theorem C9_parallel_result_sequences (beh : AudioItem → ItemBeh) (items : List AudioItem) :
    (runBatch beh [] items).all_results.length
      = (runBatch beh [] items).all_timestamps.length ∧
    ((runBatch beh [] items).all_results).map FileResult.filename
      = ((runBatch beh [] items).all_timestamps).map TimestampedText.filename := by
  have h := runBatch_filenames_parallel beh items []
  refine ⟨?_, h⟩
  have h2 := congrArg List.length h
  simpa using h2

/-- Claim C10: an error while persisting an item's bytes is not caught at the
per-item boundary: the batch aborts with that error, the results, timestamps
and per-file error records are exactly those of the preceding items — in
particular none is produced for the failing item or any later one — and the
failing item's temporary file is the one left on disk. -/
theorem C10_persist_error_aborts_batch (beh : AudioItem → ItemBeh)
    (pre post : List AudioItem) (bad : AudioItem) (m : String)
    (hnp : ∀ it ∈ pre, (beh it).isPersistError = false)
    (hbad : beh bad = .persistError m) :
    (runBatch beh [] (pre ++ bad :: post)).aborted = some m ∧
    (runBatch beh [] (pre ++ bad :: post)).all_results = pre.filterMap (resultOf beh) ∧
    (runBatch beh [] (pre ++ bad :: post)).all_timestamps = pre.filterMap (timestampOf beh) ∧
    (runBatch beh [] (pre ++ bad :: post)).errors = pre.filterMap (errorOf beh) ∧
    (runBatch beh [] (pre ++ bad :: post)).tempFiles = [tmpName bad] := by
  rw [runBatch_persist_abort beh pre post bad m hnp hbad]
  exact ⟨rfl, rfl, rfl, rfl, rfl⟩

/-- Claim C10 witness: a concrete three-item batch whose middle item fails
while its bytes are being persisted. -/
theorem C10_persist_error_aborts_batch_witness :
    (∀ it ∈ [itemA], (behPersist it).isPersistError = false) ∧
    behPersist itemB = .persistError "No space left on device" ∧
    ((runBatch behPersist [] ([itemA] ++ itemB :: [itemC])).aborted
        = some "No space left on device" ∧
     (runBatch behPersist [] ([itemA] ++ itemB :: [itemC])).all_results
        = [itemA].filterMap (resultOf behPersist) ∧
     (runBatch behPersist [] ([itemA] ++ itemB :: [itemC])).all_timestamps
        = [itemA].filterMap (timestampOf behPersist) ∧
     (runBatch behPersist [] ([itemA] ++ itemB :: [itemC])).errors
        = [itemA].filterMap (errorOf behPersist) ∧
     (runBatch behPersist [] ([itemA] ++ itemB :: [itemC])).tempFiles = [tmpName itemB]) :=
  ⟨by decide, by decide,
    C10_persist_error_aborts_batch behPersist [itemA] [itemC] itemB
      "No space left on device" (by decide) (by decide)⟩

end WhisperApp
